import Mathlib

/-!
Verification of the interview-session orchestrator of `streamlit_app.py`
(the AI Math Interviewer).  The mutable Streamlit session state is embedded
as an explicit `SessionState` record; the chat-input handler becomes the
pure step function `submit`, taking the respondent prompt and the outcome
of the generative-collaborator call as inputs.  Side effects that do not
touch the session state (rendering, the auto-save file write) are not part
of the state transition.
-/

set_option autoImplicit false

namespace MathInterviewer

/-- Role of a chat message, as in the `role` field of the message dicts. -/
inductive Role
  | user
  | assistant
deriving DecidableEq, Repr

/-- One chat message: `{"role": ..., "content": ...}`. -/
structure Turn where
  role : Role
  content : String
deriving DecidableEq, Repr

/-- The interview phase.  The source stores strings and documents the
domain as `'multiplication', 'division', 'done'` (line 202). -/
inductive Phase
  | multiplication
  | division
  | done
deriving DecidableEq, Repr

/-- The Streamlit session state fields the orchestrator reads and writes
(initialized at lines 186-210 of `streamlit_app.py`). -/
structure SessionState where
  conversation_id : String
  messages : List Turn
  phase : Phase
  mult_questions : Nat
  div_questions : Nat
  report_generated : Bool
  current_report : Option String
deriving DecidableEq, Repr

/-- The fixed opening assistant message (lines 188-194). -/
def welcome : String :=
  "Hello! I\x27m glad to have the opportunity to speak with you about how you teach " ++
  "multiplication and division of whole numbers.\n\n" ++
  "To begin, thinking specifically about **multidigit multiplication**, " ++
  "what algorithms, strategies, or visuals do you typically use with your students, " ++
  "and why do you choose those approaches?"

/-- Fresh session state as built by the initialization block (lines 186-210):
opening turn already appended, phase `multiplication`, `mult_questions = 1`
(the opening question counts), `div_questions = 0`, no report.
`conversation_id` is `datetime.now().strftime("%Y%m%d_%H%M%S")`, modelled as
an input string (the clock reading at creation time). -/
def initState (conversation_id : String) : SessionState :=
  { conversation_id := conversation_id
    messages := [Turn.mk Role.assistant welcome]
    phase := Phase.multiplication
    mult_questions := 1
    div_questions := 0
    report_generated := false
    current_report := none }

/-- Outcome of the generative-collaborator call (the OpenAI streaming call at
lines 378-385): either the completed text, or the exception message `str(e)`
caught at line 386. -/
inductive CollabResult
  | ok (text : String)
  | err (e : String)
deriving DecidableEq, Repr

/-- The fixed division-transition message (lines 360-366). -/
def transitionMessage : String :=
  "Thank you for sharing how you teach multidigit multiplication.\n\n" ++
  "Now let\x27s talk about **division**. Thinking about multidigit division " ++
  "(for example long division, partial quotients, or box/area methods), " ++
  "what algorithms, strategies, or visuals do you usually use with your students, " ++
  "and why do you choose those approaches?"

/-- The visible error-marker text substituted on collaborator failure
(line 387): `f"❌ Error: {str(e)}\n\nPlease contact administrator."`. -/
def errorMessage (e : String) : String :=
  "❌ Error: " ++ e ++ "\n\nPlease contact administrator."

/-- The `insert_transition` flag (lines 350-353): fixed transition fires when
phase is `multiplication`, `mult_questions >= 5` and `div_questions == 0`. -/
def insert_transition (s : SessionState) : Bool :=
  decide (s.phase = Phase.multiplication ∧ 5 ≤ s.mult_questions ∧ s.div_questions = 0)

/-- The assistant text in the non-transition branch: the model output on
success, the error marker on exception (lines 377-388). -/
def response_text : CollabResult → String
  | CollabResult.ok t => t
  | CollabResult.err e => errorMessage e

/-- The chat-input handler (lines 339-398) as a state transition: append the
respondent turn; compute `insert_transition`; either emit the fixed
transition (setting phase to `division` and `div_questions` to 1) or take the
collaborator outcome (error marker on failure); append the assistant turn;
then run the counter-update block (lines 393-396), which is guarded by
`not insert_transition` and reads the (possibly just reassigned) phase.
The auto-save at lines 346-347 does not change the session state. -/
def submit (s : SessionState) (prompt : String) (collab : CollabResult) : SessionState :=
  let s1 : SessionState := { s with messages := s.messages ++ [Turn.mk Role.user prompt] }
  if insert_transition s1 then
    { s1 with
        messages := s1.messages ++ [Turn.mk Role.assistant transitionMessage]
        phase := Phase.division
        div_questions := 1 }
  else
    let s2 : SessionState :=
      { s1 with messages := s1.messages ++ [Turn.mk Role.assistant (response_text collab)] }
    if s2.phase = Phase.multiplication then
      { s2 with mult_questions := s2.mult_questions + 1 }
    else if s2.phase = Phase.division then
      { s2 with div_questions := s2.div_questions + 1 }
    else
      s2

/-- One respondent submission together with the collaborator outcome its
processing observed. -/
structure Submission where
  prompt : String
  collab : CollabResult
deriving DecidableEq, Repr

/-- Run a sequence of submissions through the handler. -/
def run (s : SessionState) : List Submission → SessionState
  | [] => s
  | i :: is => run (submit s i.prompt i.collab) is

/-- Number of submissions in a trace at which the fixed division transition
fires (i.e. at which `insert_transition` holds at submission time). -/
def countEmissions (s : SessionState) : List Submission → Nat
  | [] => 0
  | i :: is =>
      (if insert_transition s then 1 else 0) + countEmissions (submit s i.prompt i.collab) is

/-- Outcome of the report-generation gate in the sidebar (lines 280-292). -/
inductive ReportGate
  | refused (remaining : Nat)
  | available
deriving DecidableEq, Repr

/-- The report gate (lines 280-284): below 6 messages the button is not
offered and the remaining count `6 - len(messages)` is shown; otherwise
generation is available. -/
def report_gate (s : SessionState) : ReportGate :=
  if s.messages.length < 6 then ReportGate.refused (6 - s.messages.length)
  else ReportGate.available

/-- The state update performed when the Generate Report button runs
(lines 288-290): the new report overwrites `current_report` and
`report_generated` is set. -/
def generate_report_update (s : SessionState) (report : String) : SessionState :=
  { s with current_report := some report, report_generated := true }

/-- The New Session button (lines 250-255): snapshot the outgoing state iff
the transcript has more than 2 turns, then clear the state; the rerun
re-executes the initialization block with a fresh clock reading `new_id`.
Returns whether a snapshot was taken, and the new state. -/
def reset (s : SessionState) (new_id : String) : Bool × SessionState :=
  (decide (2 < s.messages.length), initState new_id)

/-- Fallback protocol text built into `load_protocol` (lines 34-44). -/
def fallbackProtocol : String :=
  "Interview Protocol on Teachers\x27 use of Area Models & Visual Representations\n\n" ++
  "Role: You are a mathematics education researcher specializing in multiplicative reasoning, \n" ++
  "multidigit multiplication, and multidigit division.\n\n" ++
  "Interview Structure:\n" ++
  "- Part I: Focus on multidigit multiplication (approximately 5 questions)\n" ++
  "- Part II: Focus on multidigit division (approximately 5 questions)\n\n" ++
  "Ask open-ended questions, one at a time, focusing on algorithms, visual representations, \n" ++
  "sequencing, and teacher rationale."

/-- Possible outcomes of reading `interview_protocol.md`: a successful read,
a missing file (`FileNotFoundError`), or any other exception raised by
`open`/`read` (e.g. a permission or decode error). -/
inductive ProtocolReadOutcome
  | success (text : String)
  | fileNotFound
  | otherError (e : String)
deriving DecidableEq, Repr

/-- `load_protocol` (lines 27-44): returns the file content on success and
the built-in fallback on `FileNotFoundError`; the `except` clause names only
`FileNotFoundError`, so every other exception propagates to the caller,
modelled as `none`. -/
def load_protocol : ProtocolReadOutcome → Option String
  | ProtocolReadOutcome.success t => some t
  | ProtocolReadOutcome.fileNotFound => some fallbackProtocol
  | ProtocolReadOutcome.otherError _ => none

/-! ## Characterization lemmas for `submit` -/

/-- `insert_transition` ignores the transcript, so appending the respondent
turn does not change it. -/
lemma insert_transition_messages (s : SessionState) (m : List Turn) :
    insert_transition { s with messages := m } = insert_transition s := rfl

/-- The transcript after a submission: the respondent turn, then the assistant
turn (the fixed transition when it fires, otherwise the collaborator outcome
or error marker). -/
lemma submit_messages (s : SessionState) (p : String) (c : CollabResult) :
    (submit s p c).messages =
      s.messages ++ [Turn.mk Role.user p,
        Turn.mk Role.assistant
          (if insert_transition s then transitionMessage else response_text c)] := by
  unfold submit
  by_cases h : insert_transition s
  · simp [insert_transition_messages, h]
  · simp only [insert_transition_messages, h]
    by_cases hm : s.phase = Phase.multiplication
    · simp [hm]
    · by_cases hd : s.phase = Phase.division <;> simp [hm, hd]

/-- The phase after a submission: `division` if the transition fired, else
unchanged. -/
lemma submit_phase (s : SessionState) (p : String) (c : CollabResult) :
    (submit s p c).phase =
      if insert_transition s then Phase.division else s.phase := by
  unfold submit
  by_cases h : insert_transition s
  · simp [insert_transition_messages, h]
  · simp only [insert_transition_messages, h]
    by_cases hm : s.phase = Phase.multiplication
    · simp [hm]
    · by_cases hd : s.phase = Phase.division <;> simp [hm, hd]

/-- `mult_questions` after a submission: incremented exactly when the phase is
`multiplication` and the transition did not fire (this includes collaborator
failures, whose error turn is counted like any generated question). -/
lemma submit_mult (s : SessionState) (p : String) (c : CollabResult) :
    (submit s p c).mult_questions =
      if insert_transition s = false ∧ s.phase = Phase.multiplication then
        s.mult_questions + 1
      else s.mult_questions := by
  unfold submit
  by_cases h : insert_transition s
  · simp [insert_transition_messages, h]
  · simp only [insert_transition_messages, h]
    by_cases hm : s.phase = Phase.multiplication
    · simp [hm]
    · by_cases hd : s.phase = Phase.division <;> simp [hm, hd]

/-- `div_questions` after a submission: set to 1 by the transition,
incremented in phase `division`, otherwise unchanged. -/
lemma submit_div (s : SessionState) (p : String) (c : CollabResult) :
    (submit s p c).div_questions =
      if insert_transition s then 1
      else if s.phase = Phase.division then s.div_questions + 1
      else s.div_questions := by
  unfold submit
  by_cases h : insert_transition s
  · simp [insert_transition_messages, h]
  · simp only [insert_transition_messages, h]
    by_cases hm : s.phase = Phase.multiplication
    · simp [hm]
    · by_cases hd : s.phase = Phase.division <;> simp [hm, hd]

/-- A submission never changes the session id. -/
lemma submit_conversation_id (s : SessionState) (p : String) (c : CollabResult) :
    (submit s p c).conversation_id = s.conversation_id := by
  unfold submit
  by_cases h : insert_transition s
  · simp [insert_transition_messages, h]
  · simp only [insert_transition_messages, h]
    by_cases hm : s.phase = Phase.multiplication
    · simp [hm]
    · by_cases hd : s.phase = Phase.division <;> simp [hm, hd]

/-- Each submission appends exactly two turns. -/
lemma submit_length (s : SessionState) (p : String) (c : CollabResult) :
    (submit s p c).messages.length = s.messages.length + 2 := by
  rw [submit_messages]
  simp

/-! ## Trace-level lemmas -/

/-- The transition flag requires phase `multiplication`. -/
lemma insert_transition_phase (s : SessionState) (h : insert_transition s = true) :
    s.phase = Phase.multiplication := by
  have := of_decide_eq_true h
  exact this.1

/-- Off the `multiplication` phase the transition flag is down. -/
lemma insert_transition_false_of_ne (s : SessionState)
    (h : s.phase ≠ Phase.multiplication) : insert_transition s = false := by
  apply decide_eq_false
  intro hc
  exact h hc.1

/-- A submission never moves the phase back to `multiplication` from
elsewhere: phases other than `multiplication` are absorbing. -/
lemma submit_phase_absorb (s : SessionState) (p : String) (c : CollabResult)
    (h : s.phase ≠ Phase.multiplication) : (submit s p c).phase = s.phase := by
  rw [submit_phase, insert_transition_false_of_ne s h]
  simp

/-- Along any run, a session that has left `multiplication` never returns. -/
lemma run_phase_absorb (l : List Submission) :
    ∀ (s : SessionState), s.phase ≠ Phase.multiplication →
      (run s l).phase = s.phase := by
  induction l with
  | nil => intro s _; rfl
  | cons i is ih =>
      intro s h
      rw [run, ih (submit s i.prompt i.collab)
        (by rw [submit_phase_absorb s i.prompt i.collab h]; exact h),
        submit_phase_absorb s i.prompt i.collab h]

/-- Once the phase is not `multiplication`, no later submission of the trace
emits the fixed transition. -/
lemma countEmissions_zero (l : List Submission) :
    ∀ (s : SessionState), s.phase ≠ Phase.multiplication →
      countEmissions s l = 0 := by
  induction l with
  | nil => intro s _; rfl
  | cons i is ih =>
      intro s h
      rw [countEmissions, insert_transition_false_of_ne s h,
        ih (submit s i.prompt i.collab)
          (by rw [submit_phase_absorb s i.prompt i.collab h]; exact h)]
      simp

/-- The fixed transition fires at most once along any trace, from any state. -/
lemma countEmissions_le_one (l : List Submission) :
    ∀ (s : SessionState), countEmissions s l ≤ 1 := by
  induction l with
  | nil => intro s; exact Nat.zero_le 1
  | cons i is ih =>
      intro s
      rw [countEmissions]
      by_cases h : insert_transition s
      · have hdiv : (submit s i.prompt i.collab).phase = Phase.division := by
          rw [submit_phase, h]; simp
        rw [h, countEmissions_zero is (submit s i.prompt i.collab)
          (by rw [hdiv]; intro hc; cases hc)]
        simp
      · rw [Bool.not_eq_true] at h
        simp only [h, Bool.false_eq_true, if_false, Nat.zero_add]
        exact ih (submit s i.prompt i.collab)

/-- Inductive state invariant: no counter runs while the other phase is
pending, and the `done` phase is never entered. -/
def Inv (s : SessionState) : Prop :=
  (s.phase = Phase.multiplication → s.div_questions = 0) ∧ s.phase ≠ Phase.done

/-- The fresh session satisfies the invariant. -/
lemma Inv_init (id : String) : Inv (initState id) := by
  constructor
  · intro _; rfl
  · intro hc; cases hc

/-- The invariant is preserved by every submission. -/
lemma Inv_submit (s : SessionState) (p : String) (c : CollabResult)
    (h : Inv s) : Inv (submit s p c) := by
  constructor
  · intro hm
    rw [submit_phase] at hm
    rw [submit_div]
    by_cases ht : insert_transition s
    · rw [ht] at hm; simp at hm
    · rw [Bool.not_eq_true] at ht
      simp only [ht, Bool.false_eq_true, if_false] at hm ⊢
      rw [if_neg (by rw [hm]; intro hc; cases hc)]
      exact h.1 hm
  · rw [submit_phase]
    by_cases ht : insert_transition s
    · rw [ht]; simp
    · rw [Bool.not_eq_true] at ht
      simp only [ht, Bool.false_eq_true, if_false]
      exact h.2

/-- The invariant holds along every run. -/
lemma Inv_run (l : List Submission) :
    ∀ (s : SessionState), Inv s → Inv (run s l) := by
  induction l with
  | nil => intro s h; exact h
  | cons i is ih =>
      intro s h
      exact ih (submit s i.prompt i.collab) (Inv_submit s i.prompt i.collab h)

/-- Every reachable state satisfies the invariant. -/
lemma Inv_reachable (id : String) (l : List Submission) :
    Inv (run (initState id) l) :=
  Inv_run l (initState id) (Inv_init id)

/-- Counters never decrease across a submission. -/
lemma submit_counters_mono (s : SessionState) (p : String) (c : CollabResult) :
    s.mult_questions ≤ (submit s p c).mult_questions ∧
      s.div_questions ≤ (submit s p c).div_questions := by
  constructor
  · rw [submit_mult]
    by_cases h : insert_transition s = false ∧ s.phase = Phase.multiplication
    · rw [if_pos h]; exact Nat.le_succ _
    · rw [if_neg h]
  · rw [submit_div]
    by_cases ht : insert_transition s
    · rw [if_pos ht]
      have := of_decide_eq_true ht
      rw [this.2.2]
      exact Nat.zero_le 1
    · rw [if_neg (by simp [ht])]
      by_cases hd : s.phase = Phase.division
      · rw [if_pos hd]; exact Nat.le_succ _
      · rw [if_neg hd]

/-- Transcript length along a run: the opening turn plus two per submission. -/
lemma run_length (l : List Submission) :
    ∀ (id : String), (run (initState id) l).messages.length = 1 + 2 * l.length := by
  suffices h : ∀ (l : List Submission) (s : SessionState),
      (run s l).messages.length = s.messages.length + 2 * l.length by
    intro id
    rw [h l (initState id)]
    simp [initState, Nat.add_comm]
  intro l
  induction l with
  | nil => intro s; simp [run]
  | cons i is ih =>
      intro s
      rw [run, ih (submit s i.prompt i.collab), submit_length, List.length_cons]
      ring

/-- Record form of a submission when the transition fires. -/
lemma submit_of_transition (s : SessionState) (p : String) (c : CollabResult)
    (h : insert_transition s = true) :
    submit s p c =
      { s with
          messages := s.messages ++
            [Turn.mk Role.user p, Turn.mk Role.assistant transitionMessage]
          phase := Phase.division
          div_questions := 1 } := by
  unfold submit
  simp [insert_transition_messages, h]

/-- `mult_questions` is frozen once the phase has left `multiplication`. -/
lemma submit_mult_frozen (s : SessionState) (p : String) (c : CollabResult)
    (h : s.phase ≠ Phase.multiplication) :
    (submit s p c).mult_questions = s.mult_questions := by
  rw [submit_mult, if_neg]
  intro hc
  exact h hc.2

/-! ## Claims -/

/-- C1, counterexample: from the fresh state (phase `multiplication`,
`mult_questions = 1`), a submission whose collaborator call fails does append
the visible error-marker turn, but `mult_questions` afterwards is the
pre-failure value plus one — the counter IS advanced for the failed turn
(lines 393-394 run unconditionally in the non-transition branch), so it does
not equal its value before the submission as the claim states. -/
theorem C1_counterexample :
    (submit (initState "20240101_120000") "We use arrays." (CollabResult.err "timeout")).messages.getLast?
        = some (Turn.mk Role.assistant (errorMessage "timeout")) ∧
      (submit (initState "20240101_120000") "We use arrays." (CollabResult.err "timeout")).mult_questions
        = (initState "20240101_120000").mult_questions + 1 ∧
      ¬ (submit (initState "20240101_120000") "We use arrays." (CollabResult.err "timeout")).mult_questions
        = (initState "20240101_120000").mult_questions := by
  refine ⟨rfl, rfl, by decide⟩

/-- C1 (amended): when the collaborator call fails during phase
`multiplication` (and no transition fires), the handler appends the visible
error-marker turn as the assistant turn, but still increments
`mult_questions` by 1 exactly as for a successful turn; `div_questions` and
the phase are unchanged, and the next successful submission increments from
that already-advanced value (two more than the pre-failure count in total). -/
theorem C1_error_turn_still_counts (s : SessionState) (p e p2 t : String)
    (hphase : s.phase = Phase.multiplication)
    (hflag : insert_transition s = false) :
    (submit s p (CollabResult.err e)).messages
        = s.messages ++ [Turn.mk Role.user p, Turn.mk Role.assistant (errorMessage e)] ∧
      (submit s p (CollabResult.err e)).mult_questions = s.mult_questions + 1 ∧
      (submit s p (CollabResult.err e)).div_questions = s.div_questions ∧
      (submit s p (CollabResult.err e)).phase = Phase.multiplication ∧
      (insert_transition (submit s p (CollabResult.err e)) = false →
        (submit (submit s p (CollabResult.err e)) p2 (CollabResult.ok t)).mult_questions
          = s.mult_questions + 2) := by
  have hm : (submit s p (CollabResult.err e)).mult_questions = s.mult_questions + 1 := by
    rw [submit_mult, if_pos ⟨hflag, hphase⟩]
  have hp : (submit s p (CollabResult.err e)).phase = Phase.multiplication := by
    rw [submit_phase, hflag]
    simpa using hphase
  refine ⟨?_, hm, ?_, hp, ?_⟩
  · rw [submit_messages, hflag]
    simp [response_text]
  · rw [submit_div, hflag]
    simp only [Bool.false_eq_true, if_false]
    rw [if_neg (by rw [hphase]; intro hc; cases hc)]
  · intro h2
    rw [submit_mult, if_pos ⟨h2, hp⟩, hm]

/-- C1, witness of the amended statement at a concrete failing submission. -/
theorem C1_witness :
    (submit (initState "s1") "msg" (CollabResult.err "boom")).mult_questions
        = (initState "s1").mult_questions + 1 ∧
      (submit (submit (initState "s1") "msg" (CollabResult.err "boom")) "next"
          (CollabResult.ok "q")).mult_questions
        = (initState "s1").mult_questions + 2 :=
  ⟨(C1_error_turn_still_counts (initState "s1") "msg" "boom" "next" "q" rfl (by decide)).2.1,
   (C1_error_turn_still_counts (initState "s1") "msg" "boom" "next" "q" rfl
      (by decide)).2.2.2.2 (by decide)⟩

/-- C2: a submission arriving with phase `multiplication`,
`mult_questions ≥ 5` and `div_questions = 0` gets the fixed, literal
division-transition message as the assistant turn (the collaborator outcome
is irrelevant: the result is the same for every outcome), the phase becomes
`division` and `div_questions` becomes 1 in the same step, while
`mult_questions` is not incremented. -/
theorem C2_transition_step (s : SessionState) (p : String) (c : CollabResult)
    (hphase : s.phase = Phase.multiplication)
    (hmult : 5 ≤ s.mult_questions)
    (hdiv : s.div_questions = 0) :
    (submit s p c).messages
        = s.messages ++ [Turn.mk Role.user p, Turn.mk Role.assistant transitionMessage] ∧
      (submit s p c).phase = Phase.division ∧
      (submit s p c).div_questions = 1 ∧
      (submit s p c).mult_questions = s.mult_questions ∧
      ∀ c' : CollabResult, submit s p c = submit s p c' := by
  have ht : insert_transition s = true := decide_eq_true ⟨hphase, hmult, hdiv⟩
  rw [submit_of_transition s p c ht]
  refine ⟨rfl, rfl, rfl, rfl, ?_⟩
  intro c'
  rw [submit_of_transition s p c' ht]

/-- C2, witness at a concrete threshold state. -/
theorem C2_witness :
    (submit { initState "s2" with mult_questions := 5 } "ok" (CollabResult.ok "unused")).phase
        = Phase.division ∧
      (submit { initState "s2" with mult_questions := 5 } "ok" (CollabResult.ok "unused")).div_questions
        = 1 :=
  ⟨(C2_transition_step { initState "s2" with mult_questions := 5 } "ok"
      (CollabResult.ok "unused") rfl (by decide) rfl).2.1,
   (C2_transition_step { initState "s2" with mult_questions := 5 } "ok"
      (CollabResult.ok "unused") rfl (by decide) rfl).2.2.1⟩

/-- C3: every accepted submission grows the transcript by exactly 2 — the
new respondent turn followed by one assistant turn — for every collaborator
outcome, failures included. -/
theorem C3_two_turns_per_submission (s : SessionState) (p : String) (c : CollabResult) :
    (submit s p c).messages.length = s.messages.length + 2 ∧
      ∃ a : String,
        (submit s p c).messages
          = s.messages ++ [Turn.mk Role.user p, Turn.mk Role.assistant a] :=
  ⟨submit_length s p c, ⟨_, submit_messages s p c⟩⟩

/-- C4: along any trace from a fresh session the fixed division transition is
emitted at most once; whenever its trigger condition holds at a state, the
submission from that state does emit the literal transition message as the
assistant turn, and no trace continuing from the resulting state ever emits
it again. -/
theorem C4_transition_exactly_once (id : String) (l : List Submission)
    (s : SessionState) (p : String) (c : CollabResult)
    (h : insert_transition s = true) :
    countEmissions (initState id) l ≤ 1 ∧
      (submit s p c).messages
        = s.messages ++ [Turn.mk Role.user p, Turn.mk Role.assistant transitionMessage] ∧
      ∀ l2 : List Submission, countEmissions (submit s p c) l2 = 0 := by
  refine ⟨countEmissions_le_one l (initState id), ?_, ?_⟩
  · rw [submit_of_transition s p c h]
  · intro l2
    apply countEmissions_zero
    rw [submit_phase, h]
    simp

/-- C4, witness: a concrete trace that reaches the trigger and the emission
from a concrete triggering state. -/
theorem C4_witness :
    countEmissions (initState "s4")
        [Submission.mk "a" (CollabResult.ok "x"), Submission.mk "b" (CollabResult.ok "y")] ≤ 1 ∧
      countEmissions
        (submit { initState "s4" with mult_questions := 5 } "m" (CollabResult.ok "z"))
        [Submission.mk "c" (CollabResult.ok "w")] = 0 :=
  ⟨(C4_transition_exactly_once "s4"
      [Submission.mk "a" (CollabResult.ok "x"), Submission.mk "b" (CollabResult.ok "y")]
      { initState "s4" with mult_questions := 5 } "m" (CollabResult.ok "z") (by decide)).1,
   (C4_transition_exactly_once "s4"
      [Submission.mk "a" (CollabResult.ok "x"), Submission.mk "b" (CollabResult.ok "y")]
      { initState "s4" with mult_questions := 5 } "m" (CollabResult.ok "z") (by decide)).2.2
      [Submission.mk "c" (CollabResult.ok "w")]⟩

/-- Position of a phase in the forward ordering
multiplication → division → done. -/
def phaseIdx : Phase → Nat
  | Phase.multiplication => 0
  | Phase.division => 1
  | Phase.done => 2

/-- C5: the phase starts at `multiplication`, every submission moves it only
forward along multiplication → division → done, and once it has left
`multiplication`, no continuation of the run (absent a reset) ever returns it
to `multiplication`. -/
theorem C5_phase_monotonic (id : String) (s : SessionState) (p : String)
    (c : CollabResult) (l : List Submission) :
    (initState id).phase = Phase.multiplication ∧
      phaseIdx s.phase ≤ phaseIdx (submit s p c).phase ∧
      (s.phase ≠ Phase.multiplication → (run s l).phase ≠ Phase.multiplication) := by
  refine ⟨rfl, ?_, ?_⟩
  · rw [submit_phase]
    by_cases ht : insert_transition s
    · rw [insert_transition_phase s ht, ht]
      simp [phaseIdx]
    · rw [Bool.not_eq_true] at ht
      simp [ht]
  · intro h
    rw [run_phase_absorb l s h]
    exact h

/-- C5, witness: a session already in `division` never shows
`multiplication` again along a concrete continuation. -/
theorem C5_witness :
    (run { initState "s5" with phase := Phase.division }
        [Submission.mk "m" (CollabResult.ok "q")]).phase ≠ Phase.multiplication :=
  (C5_phase_monotonic "s5" { initState "s5" with phase := Phase.division } "m"
      (CollabResult.ok "q") [Submission.mk "m" (CollabResult.ok "q")]).2.2 (by decide)

/-- C6: in every reachable state both counters are non-negative and do not
decrease across a submission, `div_questions` is 0 whenever the phase is
`multiplication`, and `mult_questions` never changes once the phase has left
`multiplication`. -/
theorem C6_counter_invariants (id : String) (l : List Submission)
    (p : String) (c : CollabResult) :
    0 ≤ (run (initState id) l).mult_questions ∧
      0 ≤ (run (initState id) l).div_questions ∧
      ((run (initState id) l).phase = Phase.multiplication →
        (run (initState id) l).div_questions = 0) ∧
      (run (initState id) l).mult_questions
        ≤ (submit (run (initState id) l) p c).mult_questions ∧
      (run (initState id) l).div_questions
        ≤ (submit (run (initState id) l) p c).div_questions ∧
      ((run (initState id) l).phase ≠ Phase.multiplication →
        (submit (run (initState id) l) p c).mult_questions
          = (run (initState id) l).mult_questions) :=
  ⟨Nat.zero_le _, Nat.zero_le _, (Inv_reachable id l).1,
   (submit_counters_mono (run (initState id) l) p c).1,
   (submit_counters_mono (run (initState id) l) p c).2,
   fun h => submit_mult_frozen (run (initState id) l) p c h⟩

/-- C6, witness: the invariants evaluated on concrete traces — the fresh
state (phase `multiplication`) has `div_questions = 0`, and after a concrete
trace that has entered `division`, a further submission leaves
`mult_questions` unchanged. -/
theorem C6_witness :
    (run (initState "s6") []).div_questions = 0 ∧
      (submit (run (initState "s6")
          [Submission.mk "a" (CollabResult.ok "q1"), Submission.mk "b" (CollabResult.ok "q2"),
           Submission.mk "c" (CollabResult.ok "q3"), Submission.mk "d" (CollabResult.ok "q4"),
           Submission.mk "e" (CollabResult.ok "q5")]) "f" (CollabResult.ok "q6")).mult_questions
        = (run (initState "s6")
          [Submission.mk "a" (CollabResult.ok "q1"), Submission.mk "b" (CollabResult.ok "q2"),
           Submission.mk "c" (CollabResult.ok "q3"), Submission.mk "d" (CollabResult.ok "q4"),
           Submission.mk "e" (CollabResult.ok "q5")]).mult_questions :=
  ⟨(C6_counter_invariants "s6" [] "x" (CollabResult.ok "y")).2.2.1 rfl,
   (C6_counter_invariants "s6"
      [Submission.mk "a" (CollabResult.ok "q1"), Submission.mk "b" (CollabResult.ok "q2"),
       Submission.mk "c" (CollabResult.ok "q3"), Submission.mk "d" (CollabResult.ok "q4"),
       Submission.mk "e" (CollabResult.ok "q5")] "f" (CollabResult.ok "q6")).2.2.2.2.2
      (by decide)⟩

/-- C7: the report gate refuses (with the remaining-turns count
`6 - len(messages)`) while the transcript is shorter than 6, offers
generation once the length is at least 6, and generating stores the new
report over the previous one. -/
theorem C7_report_gate (s : SessionState) (r : String) :
    (s.messages.length < 6 →
        report_gate s = ReportGate.refused (6 - s.messages.length)) ∧
      (6 ≤ s.messages.length → report_gate s = ReportGate.available) ∧
      (generate_report_update s r).current_report = some r ∧
      (generate_report_update s r).report_generated = true := by
  refine ⟨?_, ?_, rfl, rfl⟩
  · intro h
    rw [report_gate, if_pos h]
  · intro h
    rw [report_gate, if_neg (Nat.not_lt.mpr h)]

/-- C7, witness: the fresh session (1 message) is refused with remaining
count 5; a 6-message transcript is offered generation. -/
theorem C7_witness :
    report_gate (initState "s7") = ReportGate.refused 5 ∧
      report_gate
        { initState "s7" with messages := List.replicate 6 (Turn.mk Role.user "x") }
        = ReportGate.available :=
  ⟨(C7_report_gate (initState "s7") "r").1 (by decide),
   (C7_report_gate
      { initState "s7" with messages := List.replicate 6 (Turn.mk Role.user "x") } "r").2.1
      (by decide)⟩

/-- C8, counterexample: the new session id is the reset-time clock reading
`datetime.now().strftime("%Y%m%d_%H%M%S")`, which has one-second
granularity; a reset in the same second as the outgoing session's creation
yields the SAME id as the prior session, refuting the claimed distinctness
from all prior ids. -/
theorem C8_counterexample :
    (reset (initState "20240101_120000") "20240101_120000").2.conversation_id
      = (initState "20240101_120000").conversation_id := rfl

/-- C8 (amended): reset snapshots the outgoing state iff its transcript has
more than 2 turns, then discards it and yields a fresh session whose
transcript is exactly the opening assistant turn with `mult_questions = 1`
and `div_questions = 0`, and whose id is the reset-time timestamp string —
distinct from a prior id only when that timestamp differs from it (resets
within one second of a prior session creation can collide). -/
theorem C8_reset (s : SessionState) (new_id : String) :
    ((reset s new_id).1 = true ↔ 2 < s.messages.length) ∧
      (reset s new_id).2 = initState new_id ∧
      (reset s new_id).2.messages = [Turn.mk Role.assistant welcome] ∧
      (reset s new_id).2.mult_questions = 1 ∧
      (reset s new_id).2.div_questions = 0 ∧
      (new_id ≠ s.conversation_id →
        (reset s new_id).2.conversation_id ≠ s.conversation_id) := by
  refine ⟨decide_eq_true_iff, rfl, rfl, rfl, rfl, ?_⟩
  intro h hc
  exact h hc

/-- C8, witness: reset with a clock reading that differs from the prior id
does produce a distinct id. -/
theorem C8_witness :
    (reset (initState "20240101_120000") "20240101_120001").2.conversation_id
      ≠ (initState "20240101_120000").conversation_id :=
  (C8_reset (initState "20240101_120000") "20240101_120001").2.2.2.2.2 (by decide)

/-- C9, counterexample: the `except` clause of `load_protocol` names only
`FileNotFoundError`, so an outcome such as a permission error propagates —
the load CAN raise, refuting the claim that it returns normally for every
outcome of reading the protocol file. -/
theorem C9_counterexample :
    load_protocol (ProtocolReadOutcome.otherError "PermissionError") = none := rfl

/-- C9 (amended): when the protocol file is missing (`FileNotFoundError`),
`load_protocol` substitutes the built-in fallback text and returns normally;
on a successful read it returns the file content; any other exception
raised while reading propagates to the caller. -/
theorem C9_load_protocol (t e : String) :
    load_protocol (ProtocolReadOutcome.success t) = some t ∧
      load_protocol ProtocolReadOutcome.fileNotFound = some fallbackProtocol ∧
      load_protocol (ProtocolReadOutcome.otherError e) = none :=
  ⟨rfl, rfl, rfl⟩

/-- C10: without a reset, a reachable phase is only ever `multiplication` or
`division` (`done` is never entered — no closing transition exists); the
transcript after `n` submissions has exactly `1 + 2·n` turns, so submissions
keep being accepted unboundedly; and in phase `division` every submission —
whatever `div_questions` holds, no terminal threshold being checked — keeps
the phase at `division`, appends two turns, and increments
`div_questions`. -/
theorem C10_no_done_phase (id : String) (l : List Submission)
    (s : SessionState) (p : String) (c : CollabResult) :
    ((run (initState id) l).phase = Phase.multiplication ∨
        (run (initState id) l).phase = Phase.division) ∧
      (run (initState id) l).messages.length = 1 + 2 * l.length ∧
      (s.phase = Phase.division →
        (submit s p c).phase = Phase.division ∧
        (submit s p c).messages.length = s.messages.length + 2 ∧
        (submit s p c).div_questions = s.div_questions + 1) := by
  refine ⟨?_, run_length l id, ?_⟩
  · cases h : (run (initState id) l).phase with
    | multiplication => exact Or.inl rfl
    | division => exact Or.inr rfl
    | done => exact absurd h (Inv_reachable id l).2
  · intro hd
    have hne : s.phase ≠ Phase.multiplication := by rw [hd]; intro hc; cases hc
    have hf : insert_transition s = false := insert_transition_false_of_ne s hne
    refine ⟨?_, submit_length s p c, ?_⟩
    · rw [submit_phase_absorb s p c hne, hd]
    · rw [submit_div, hf]
      simp only [Bool.false_eq_true, if_false]
      rw [if_pos hd]

/-- C10, witness: a concrete division-phase state with a large
`div_questions` still accepts a submission, stays in `division` and keeps
counting. -/
theorem C10_witness :
    (submit { initState "sA" with phase := Phase.division, div_questions := 9 } "m"
        (CollabResult.ok "q")).phase = Phase.division ∧
      (submit { initState "sA" with phase := Phase.division, div_questions := 9 } "m"
        (CollabResult.ok "q")).div_questions = 10 :=
  ⟨((C10_no_done_phase "sA" []
      { initState "sA" with phase := Phase.division, div_questions := 9 } "m"
      (CollabResult.ok "q")).2.2 (by decide)).1,
   ((C10_no_done_phase "sA" []
      { initState "sA" with phase := Phase.division, div_questions := 9 } "m"
      (CollabResult.ok "q")).2.2 (by decide)).2.2⟩

end MathInterviewer
